import Mathlib

/-!
Verification development for the poc-search-engines repository.

The repository has two Python source files:
* src/app.py — the query phase: one search function per backend
  (search_qdrant, search_elasticsearch, search_typesense), each building a
  backend-native vector-search request and collapsing the backend's response
  into a list of canonical result dictionaries; plus get_embedding.
* src/ingest_data.py — the ingestion phase: one setup function per backend
  (setup_qdrant, setup_elasticsearch, setup_typesense) that deletes any
  existing collection/index, recreates it with the backend's schema and
  bulk-loads the documents; plus a main block that computes one embedding
  per catalog record and feeds the same augmented list to all three setups.

Modelling choices, uniform across the file:
* Numeric values (embedding components, scores) are modelled as Int.  The
  source never performs arithmetic on them: scores are copied verbatim from
  response to result, and embedding components are only passed through or
  serialized with Python str (modelled as toString).
* A Python dict with string values is an association list; access d[k] on a
  missing key raises KeyError in Python, modelled as the error value
  ParseError.malformedResponse (the spec's MalformedResponseError).
* Effectful backend mutation (delete/create/insert calls) is modelled as a
  trace of IngestOp values together with a store semantics applyIngestOp;
  the per-document uuid4 identifiers are modelled as an identifier supply
  ids : Nat → String consumed in loop order.
-/

/-- Collection/index name shared by all backends
(src/app.py line 27, src/ingest_data.py line 25). -/
def COLLECTION_NAME : String := "degree_programs"

/-- Embedding dimensionality constant (src/app.py line 28,
src/ingest_data.py line 26). -/
def EMBEDDING_DIMENSION : Nat := 1536

/-- Numeric scalar of the source (Python float / int); the source never
computes with these values, it only copies or stringifies them. -/
abbrev Scalar := Int

/-- A Python dict with string values, as an association list. -/
abbrev Dict := List (String × String)

/-- Python d[k]: the value stored under key k, if present. -/
def dictGet (d : Dict) (k : String) : Option String :=
  (d.find? (fun p => p.1 == k)).map (fun p => p.2)

/-- Errors a parse of a backend response can raise: a missing expected field
(Python KeyError; the spec's MalformedResponseError) or an out-of-range list
index (Python IndexError). -/
inductive ParseError
  | malformedResponse
  | indexOutOfRange
deriving DecidableEq, Repr

/-- The unified result record produced for display
(the dict literals at src/app.py lines 51-58, 76-83, 105-112). -/
structure CanonicalResult where
  title : String
  shortDescription : String
  description : String
  image : String
  url : String
  score : Scalar
deriving DecidableEq, Repr

/-- Python d[k] with KeyError modelled as malformedResponse. -/
def getRequired (d : Dict) (k : String) : Except ParseError String :=
  match dictGet d k with
  | some v => Except.ok v
  | none => Except.error ParseError.malformedResponse

/-- The five payload/document fields every backend response hit must carry. -/
def hasAllFields (d : Dict) : Bool :=
  (dictGet d "title").isSome && (dictGet d "shortDescription").isSome &&
  (dictGet d "description").isSome && (dictGet d "image").isSome &&
  (dictGet d "url").isSome

/-- The Python list comprehension over response hits: parse each hit in
order; the first failing hit aborts the whole parse with its error. -/
def map_parse {α : Type} (f : α → Except ParseError CanonicalResult) :
    List α → Except ParseError (List CanonicalResult)
  | [] => Except.ok []
  | h :: t =>
    match f h with
    | Except.error e => Except.error e
    | Except.ok c =>
      match map_parse f t with
      | Except.error e => Except.error e
      | Except.ok cs => Except.ok (c :: cs)

/-! ## Qdrant query phase (src/app.py lines 40-58) -/

/-- The qd_client.query_points call of search_qdrant (src/app.py 44-49). -/
structure QdrantRequest where
  collection_name : String
  query : List Scalar
  limit : Nat
  with_payload : Bool
deriving DecidableEq

/-- search_qdrant's request construction (src/app.py lines 44-49). -/
def search_qdrant_request (embedding : List Scalar) (limit : Nat) : QdrantRequest :=
  { collection_name := COLLECTION_NAME
    query := embedding
    limit := limit
    with_payload := true }

/-- One point of a Qdrant query_points response: a payload dict and a
similarity score. -/
structure QdrantPoint where
  payload : Dict
  score : Scalar
deriving DecidableEq

/-- The per-hit dict of search_qdrant (src/app.py lines 51-58): five
payload accesses, each raising KeyError when missing, and hit.score copied
verbatim.  The accesses happen left to right; whichever field is missing,
the raised error is the same malformedResponse value. -/
def qdrant_parse_hit (hit : QdrantPoint) : Except ParseError CanonicalResult :=
  match dictGet hit.payload "title", dictGet hit.payload "shortDescription",
      dictGet hit.payload "description", dictGet hit.payload "image",
      dictGet hit.payload "url" with
  | some t, some sd, some d, some im, some u =>
    Except.ok { title := t, shortDescription := sd, description := d,
                image := im, url := u, score := hit.score }
  | _, _, _, _, _ => Except.error ParseError.malformedResponse

/-- The list comprehension of search_qdrant over query_points.points
(src/app.py lines 51-58). -/
def search_qdrant_parse (points : List QdrantPoint) :
    Except ParseError (List CanonicalResult) :=
  map_parse qdrant_parse_hit points

/-! ## Elasticsearch query phase (src/app.py lines 60-83) -/

/-- The knn clause of the search body (src/app.py lines 65-70). -/
structure ESKnnClause where
  field : String
  query_vector : List Scalar
  k : Nat
  num_candidates : Nat
deriving DecidableEq

/-- The search body passed to es_client.search (src/app.py lines 64-72);
source_fields embeds the body's "_source" projection list. -/
structure ESSearchBody where
  knn : ESKnnClause
  source_fields : List String
deriving DecidableEq

/-- search_elasticsearch's request construction (src/app.py lines 64-72). -/
def search_elasticsearch_request (embedding : List Scalar) (limit : Nat) : ESSearchBody :=
  { knn :=
      { field := "embedding"
        query_vector := embedding
        k := limit
        num_candidates := 100 }
    source_fields := ["title", "description", "shortDescription", "image", "url"] }

/-- One hit of an Elasticsearch response: source embeds hit["_source"],
score embeds hit["_score"]. -/
structure ESHit where
  source : Dict
  score : Scalar
deriving DecidableEq

/-- The inner hits object of an Elasticsearch response (results["hits"]). -/
structure ESHitsWrapper where
  hits : List ESHit
deriving DecidableEq

/-- An Elasticsearch search response (the results dict of src/app.py 74). -/
structure ESResponse where
  hits : ESHitsWrapper
deriving DecidableEq

/-- The per-hit dict of search_elasticsearch (src/app.py lines 76-83): five
accesses into hit["_source"], each raising KeyError when missing, and
hit["_score"] copied verbatim. -/
def elasticsearch_parse_hit (hit : ESHit) : Except ParseError CanonicalResult :=
  match dictGet hit.source "title", dictGet hit.source "shortDescription",
      dictGet hit.source "description", dictGet hit.source "image",
      dictGet hit.source "url" with
  | some t, some sd, some d, some im, some u =>
    Except.ok { title := t, shortDescription := sd, description := d,
                image := im, url := u, score := hit.score }
  | _, _, _, _, _ => Except.error ParseError.malformedResponse

/-- The list comprehension of search_elasticsearch over
results["hits"]["hits"] (src/app.py lines 76-83). -/
def search_elasticsearch_parse (results : ESResponse) :
    Except ParseError (List CanonicalResult) :=
  map_parse elasticsearch_parse_hit results.hits.hits

/-! ## Typesense query phase (src/app.py lines 85-112) -/

/-- The vector_query string of search_typesense (src/app.py line 95):
Python f-string "embedding:([{','.join(map(str, embedding))}], k:{limit})". -/
def typesense_vector_query (embedding : List Scalar) (limit : Nat) : String :=
  "embedding:([" ++ String.intercalate "," (embedding.map toString) ++
    "], k:" ++ toString limit ++ ")"

/-- One entry of the multi-search "searches" list (src/app.py lines 92-97). -/
structure TypesenseSearch where
  collection : String
  q : String
  vector_query : String
  per_page : Nat
deriving DecidableEq

/-- The multi-search request body (src/app.py lines 90-99). -/
structure TypesenseRequest where
  searches : List TypesenseSearch
deriving DecidableEq

/-- search_typesense's request construction (src/app.py lines 90-99). -/
def search_typesense_request (embedding : List Scalar) (limit : Nat) : TypesenseRequest :=
  { searches :=
      [ { collection := COLLECTION_NAME
          q := "*"
          vector_query := typesense_vector_query embedding limit
          per_page := limit } ] }

/-- One Typesense hit: the document dict and the optional vector_distance
key read with hit.get("vector_distance", 0) (src/app.py line 111). -/
structure TypesenseHit where
  document : Dict
  vector_distance : Option Scalar
deriving DecidableEq

/-- One entry of results["results"]; its "hits" key is optional and read
with .get("hits", []) (src/app.py line 102). -/
structure TypesenseSearchResult where
  hits : Option (List TypesenseHit)
deriving DecidableEq

/-- A Typesense multi-search response (the results dict of src/app.py 101). -/
structure TypesenseResponse where
  results : List TypesenseSearchResult
deriving DecidableEq

/-- The per-hit dict of search_typesense (src/app.py lines 105-112): five
accesses into hit["document"], each raising KeyError when missing, and
score := hit.get("vector_distance", 0). -/
def typesense_parse_hit (hit : TypesenseHit) : Except ParseError CanonicalResult :=
  match dictGet hit.document "title", dictGet hit.document "shortDescription",
      dictGet hit.document "description", dictGet hit.document "image",
      dictGet hit.document "url" with
  | some t, some sd, some d, some im, some u =>
    Except.ok { title := t, shortDescription := sd, description := d,
                image := im, url := u, score := hit.vector_distance.getD 0 }
  | _, _, _, _, _ => Except.error ParseError.malformedResponse

/-- search_typesense's response handling (src/app.py lines 101-112):
hits = results["results"][0].get("hits", []), an IndexError when the
results list is empty, then the list comprehension over hits. -/
def search_typesense_parse (results : TypesenseResponse) :
    Except ParseError (List CanonicalResult) :=
  match results.results.head? with
  | none => Except.error ParseError.indexOutOfRange
  | some r => map_parse typesense_parse_hit (r.hits.getD [])

/-! ## Embedding provider adapter (src/app.py lines 30-38,
src/ingest_data.py lines 28-36) -/

/-- Failure of the external OpenAI embeddings call (auth, rate limit,
network); the spec's ProviderError. -/
inductive ProviderError
  | providerFailure
deriving DecidableEq, Repr

/-- One entry of the provider response's data list; its embedding vector. -/
structure EmbeddingDatum where
  embedding : List Scalar
deriving DecidableEq

/-- The provider response object: res.data is a list of embedding data. -/
structure EmbeddingsResponse where
  data : List EmbeddingDatum
deriving DecidableEq

/-- Errors get_embedding can surface: a failed provider call, or an
IndexError from res.data[0] on an empty data list. -/
inductive EmbedError
  | provider (e : ProviderError)
  | indexOutOfRange
deriving DecidableEq, Repr

/-- get_embedding (src/app.py lines 30-38 and src/ingest_data.py lines
28-36): calls openai_client.embeddings.create (modelled as the oracle
create, which either fails or returns a response object) and returns
res.data[0].embedding.  No validation of the vector is performed. -/
def get_embedding (create : String → Except ProviderError EmbeddingsResponse)
    (text : String) : Except EmbedError (List Scalar) :=
  match create text with
  | Except.error e => Except.error (EmbedError.provider e)
  | Except.ok res =>
    match res.data.head? with
    | some d => Except.ok d.embedding
    | none => Except.error EmbedError.indexOutOfRange

/-! ## Ingestion phase data model (src/ingest_data.py) -/

/-- One record of assets/programs.json (consumed at src/ingest_data.py
lines 168-178). -/
structure ProgramItem where
  title : String
  shortDescription : String
  longDescription : String
  degreeImage : String
  detailPage : String
deriving DecidableEq

/-- One entry of data_with_embeddings: the merged dict
left-brace **item, "embedding": embedding right-brace
(src/ingest_data.py lines 175-178). -/
structure EmbeddedItem where
  item : ProgramItem
  embedding : List Scalar
deriving DecidableEq

/-- The stored unit each setup function builds from one item: the document
field mapping shared verbatim by all three setups (src/ingest_data.py lines
62-68, 108-115, 149-157), with the vector attached. -/
structure StoredDoc where
  title : String
  url : String
  shortDescription : String
  description : String
  image : String
  embedding : List Scalar
deriving DecidableEq

/-- The document built from one embedded item: title := item["title"],
url := item["detailPage"], shortDescription := item["shortDescription"],
description := item["longDescription"], image := item["degreeImage"],
embedding := item["embedding"]. -/
def doc_of (it : EmbeddedItem) : StoredDoc :=
  { title := it.item.title
    url := it.item.detailPage
    shortDescription := it.item.shortDescription
    description := it.item.longDescription
    image := it.item.degreeImage
    embedding := it.embedding }

/-- The per-item loop of each setup function: pair each document with the
next identifier from the uuid4 supply, in loop order. -/
def attachIds (ids : Nat → String) (start : Nat) :
    List EmbeddedItem → List (String × StoredDoc)
  | [] => []
  | it :: rest => (ids start, doc_of it) :: attachIds ids (start + 1) rest

/-- The qdrant vectors_config value
(src/ingest_data.py line 52: VectorParams(size=1536, distance=COSINE)). -/
inductive VectorDistance
  | cosine
deriving DecidableEq, Repr

/-- Qdrant VectorParams (src/ingest_data.py line 52). -/
structure QdrantVectorParams where
  size : Nat
  distance : VectorDistance
deriving DecidableEq

/-- One property of the Elasticsearch mapping
(src/ingest_data.py lines 86-102). -/
structure ESFieldMapping where
  name : String
  type : String
  dims : Option Nat
  indexed : Option Bool
  similarity : Option String
deriving DecidableEq

/-- The Elasticsearch mapping's properties (src/ingest_data.py lines
86-102); the five document fields have only a type, the embedding property
is a dense_vector with dims, index:true and similarity "cosine". -/
def elasticsearch_mapping : List ESFieldMapping :=
  [ { name := "title", type := "text", dims := none, indexed := none, similarity := none },
    { name := "shortDescription", type := "text", dims := none, indexed := none, similarity := none },
    { name := "description", type := "text", dims := none, indexed := none, similarity := none },
    { name := "image", type := "keyword", dims := none, indexed := none, similarity := none },
    { name := "url", type := "keyword", dims := none, indexed := none, similarity := none },
    { name := "embedding", type := "dense_vector", dims := some EMBEDDING_DIMENSION,
      indexed := some true, similarity := some "cosine" } ]

/-- One field of the Typesense schema (src/ingest_data.py lines 136-143). -/
structure TypesenseField where
  name : String
  type : String
  num_dim : Option Nat
deriving DecidableEq

/-- The Typesense collection schema (src/ingest_data.py lines 134-144):
a name and a field list; the schema dict carries no distance/similarity
entry of any kind. -/
structure TypesenseSchema where
  name : String
  fields : List TypesenseField
deriving DecidableEq

/-- The Typesense schema value (src/ingest_data.py lines 134-144). -/
def typesense_schema : TypesenseSchema :=
  { name := COLLECTION_NAME
    fields :=
      [ { name := "title", type := "string", num_dim := none },
        { name := "shortDescription", type := "string", num_dim := none },
        { name := "description", type := "string", num_dim := none },
        { name := "image", type := "string", num_dim := none },
        { name := "url", type := "string", num_dim := none },
        { name := "embedding", type := "float[]", num_dim := some EMBEDDING_DIMENSION } ] }

/-- The schema argument of a collection/index creation call, per backend. -/
inductive CreateSchema
  | qdrant (vectors_config : QdrantVectorParams)
  | elasticsearch (properties : List ESFieldMapping)
  | typesense (schema : TypesenseSchema)
deriving DecidableEq

/-- The schema passed to qd_client.create_collection
(src/ingest_data.py lines 50-53): vectors_config only, no payload field
type declarations. -/
def qdrant_create_schema : CreateSchema :=
  CreateSchema.qdrant { size := EMBEDDING_DIMENSION, distance := VectorDistance.cosine }

/-- The mapping passed to es_client.indices.create
(src/ingest_data.py line 105). -/
def elasticsearch_create_schema : CreateSchema :=
  CreateSchema.elasticsearch elasticsearch_mapping

/-- The schema passed to typesense_client.collections.create
(src/ingest_data.py line 146). -/
def typesense_create_schema : CreateSchema :=
  CreateSchema.typesense typesense_schema

/-- Whether a creation schema declares a type for the named document
field.  Qdrant's create_collection call (src/ingest_data.py 50-53) takes
only vectors_config, so it declares no document field at all. -/
def schemaFieldDeclared (s : CreateSchema) (f : String) : Bool :=
  match s with
  | CreateSchema.qdrant _ => false
  | CreateSchema.elasticsearch props => props.any (fun p => p.name == f)
  | CreateSchema.typesense sc => sc.fields.any (fun fd => fd.name == f)

/-- The embedding dimensionality a creation schema declares. -/
def schemaEmbeddingDims (s : CreateSchema) : Option Nat :=
  match s with
  | CreateSchema.qdrant vp => some vp.size
  | CreateSchema.elasticsearch props =>
    match props.find? (fun p => p.name == "embedding") with
    | some p => p.dims
    | none => none
  | CreateSchema.typesense sc =>
    match sc.fields.find? (fun fd => fd.name == "embedding") with
    | some fd => fd.num_dim
    | none => none

/-- Whether a creation schema declares the cosine distance metric.  The
Typesense schema dict (src/ingest_data.py 134-144) has no distance or
similarity entry, so it declares none. -/
def schemaDeclaresCosine (s : CreateSchema) : Bool :=
  match s with
  | CreateSchema.qdrant vp => vp.distance == VectorDistance.cosine
  | CreateSchema.elasticsearch props =>
    match props.find? (fun p => p.name == "embedding") with
    | some p => p.similarity == some "cosine"
    | none => false
  | CreateSchema.typesense _ => false

/-- The five canonical document field names. -/
def CANONICAL_FIELDS : List String :=
  ["title", "shortDescription", "description", "image", "url"]

/-- One backend call made by an ingestion run. -/
inductive IngestOp
  | deleteCollection (name : String)
  | createCollection (name : String) (schema : CreateSchema)
  | insertDoc (name : String) (id : String) (doc : StoredDoc)
  | bulkUpsert (name : String) (points : List (String × StoredDoc))
  | refreshIndex (name : String)
deriving DecidableEq

/-- Backend store state: collection name → stored (id, document) pairs. -/
abbrev Store := List (String × List (String × StoredDoc))

/-- The collection stored under a name, if present. -/
def storeGet (s : Store) (n : String) : Option (List (String × StoredDoc)) :=
  (s.find? (fun p => p.1 == n)).map (fun p => p.2)

/-- Remove a collection; removing an absent name changes nothing. -/
def storeRemove (s : Store) (n : String) : Store :=
  s.filter (fun p => p.1 != n)

/-- Bind a name to a document list, replacing any previous binding. -/
def storeSet (s : Store) (n : String) (d : List (String × StoredDoc)) : Store :=
  (n, d) :: storeRemove s n

/-- Backend semantics of one ingestion call: deletion of an absent
collection is tolerated (no-op), creation starts an empty collection,
single and bulk insertion append. -/
def applyIngestOp (s : Store) : IngestOp → Store
  | IngestOp.deleteCollection n => storeRemove s n
  | IngestOp.createCollection n _ => storeSet s n []
  | IngestOp.insertDoc n id doc => storeSet s n ((storeGet s n).getD [] ++ [(id, doc)])
  | IngestOp.bulkUpsert n pts => storeSet s n ((storeGet s n).getD [] ++ pts)
  | IngestOp.refreshIndex _ => s

/-- The calls setup_qdrant makes (src/ingest_data.py lines 38-73): a
collection_exists check guards the delete, then create_collection with
vectors_config, then one bulk upsert of all points (each point an uuid4
id, the item's vector and the five payload fields). -/
def setup_qdrant_trace (ids : Nat → String) (data : List EmbeddedItem)
    (st : Store) : List IngestOp :=
  (if (storeGet st COLLECTION_NAME).isSome
    then [IngestOp.deleteCollection COLLECTION_NAME] else [])
  ++ IngestOp.createCollection COLLECTION_NAME qdrant_create_schema
  :: [IngestOp.bulkUpsert COLLECTION_NAME (attachIds ids 0 data)]

/-- The calls setup_elasticsearch makes (src/ingest_data.py lines 75-119):
an indices.exists check guards the delete, then indices.create with the
mapping, then one es_client.index call per document (id an uuid4), then
indices.refresh. -/
def setup_elasticsearch_trace (ids : Nat → String) (data : List EmbeddedItem)
    (st : Store) : List IngestOp :=
  (if (storeGet st COLLECTION_NAME).isSome
    then [IngestOp.deleteCollection COLLECTION_NAME] else [])
  ++ IngestOp.createCollection COLLECTION_NAME elasticsearch_create_schema
  :: ((attachIds ids 0 data).map (fun p => IngestOp.insertDoc COLLECTION_NAME p.1 p.2)
      ++ [IngestOp.refreshIndex COLLECTION_NAME])

/-- The calls setup_typesense makes (src/ingest_data.py lines 121-160): an
unconditional delete attempt (its failure swallowed by the except block),
then collections.create with the schema, then one documents.create call
per document (id an uuid4). -/
def setup_typesense_trace (ids : Nat → String) (data : List EmbeddedItem)
    (_st : Store) : List IngestOp :=
  IngestOp.deleteCollection COLLECTION_NAME
  :: IngestOp.createCollection COLLECTION_NAME typesense_create_schema
  :: (attachIds ids 0 data).map (fun p => IngestOp.insertDoc COLLECTION_NAME p.1 p.2)

/-- Run one setup trace against the store. -/
def run_setup_qdrant (ids : Nat → String) (data : List EmbeddedItem)
    (st : Store) : Store :=
  (setup_qdrant_trace ids data st).foldl applyIngestOp st

/-- Run setup_elasticsearch against the store. -/
def run_setup_elasticsearch (ids : Nat → String) (data : List EmbeddedItem)
    (st : Store) : Store :=
  (setup_elasticsearch_trace ids data st).foldl applyIngestOp st

/-- Run setup_typesense against the store. -/
def run_setup_typesense (ids : Nat → String) (data : List EmbeddedItem)
    (st : Store) : Store :=
  (setup_typesense_trace ids data st).foldl applyIngestOp st

/-- The documents a trace inserts, in order, with their identifiers. -/
def insertedDocs : List IngestOp → List (String × StoredDoc)
  | [] => []
  | IngestOp.insertDoc _ id doc :: tr => (id, doc) :: insertedDocs tr
  | IngestOp.bulkUpsert _ pts :: tr => pts ++ insertedDocs tr
  | _ :: tr => insertedDocs tr

/-- Whether an ingestion call is a deletion. -/
def isDeleteOp : IngestOp → Bool
  | IngestOp.deleteCollection _ => true
  | _ => false

/-- Whether an ingestion call inserts documents. -/
def isInsertOp : IngestOp → Bool
  | IngestOp.insertDoc _ _ _ => true
  | IngestOp.bulkUpsert _ _ => true
  | _ => false

/-- Whether an ingestion call is an index refresh. -/
def isRefreshOp : IngestOp → Bool
  | IngestOp.refreshIndex _ => true
  | _ => false

/-- The embedding loop of the main block (src/ingest_data.py lines
171-178): for each catalog item, one get_embedding call on the item's
longDescription, producing the augmented item; returns the augmented list
together with the log of provider-call inputs, one entry per call. -/
def embed_all (embed : String → List Scalar) :
    List ProgramItem → List EmbeddedItem × List String
  | [] => ([], [])
  | item :: rest =>
    let e := embed item.longDescription
    let p := embed_all embed rest
    ({ item := item, embedding := e } :: p.1, item.longDescription :: p.2)

/-! ## Lemmas about the response parsers -/

/-- A canonical result's five non-score fields are exactly the values the
response dict stores under the five expected keys. -/
def canonicalMatch (d : Dict) (c : CanonicalResult) : Prop :=
  dictGet d "title" = some c.title ∧
  dictGet d "shortDescription" = some c.shortDescription ∧
  dictGet d "description" = some c.description ∧
  dictGet d "image" = some c.image ∧
  dictGet d "url" = some c.url

theorem qdrant_parse_hit_ok (h : QdrantPoint) (hw : hasAllFields h.payload = true) :
    ∃ c, qdrant_parse_hit h = Except.ok c ∧ canonicalMatch h.payload c ∧ c.score = h.score := by
  simp only [hasAllFields, Bool.and_eq_true, Option.isSome_iff_exists] at hw
  obtain ⟨⟨⟨⟨⟨t, ht⟩, ⟨sd, hsd⟩⟩, ⟨d, hd⟩⟩, ⟨im, him⟩⟩, ⟨u, hu⟩⟩ := hw
  refine ⟨{ title := t, shortDescription := sd, description := d, image := im,
            url := u, score := h.score }, ?_, ⟨ht, hsd, hd, him, hu⟩, rfl⟩
  simp [qdrant_parse_hit, ht, hsd, hd, him, hu]

theorem qdrant_parse_hit_err (h : QdrantPoint) (hw : hasAllFields h.payload = false) :
    qdrant_parse_hit h = Except.error ParseError.malformedResponse := by
  revert hw
  unfold hasAllFields qdrant_parse_hit
  generalize dictGet h.payload "title" = o1
  generalize dictGet h.payload "shortDescription" = o2
  generalize dictGet h.payload "description" = o3
  generalize dictGet h.payload "image" = o4
  generalize dictGet h.payload "url" = o5
  cases o1 <;> cases o2 <;> cases o3 <;> cases o4 <;> cases o5 <;> simp

theorem elasticsearch_parse_hit_ok (h : ESHit) (hw : hasAllFields h.source = true) :
    ∃ c, elasticsearch_parse_hit h = Except.ok c ∧ canonicalMatch h.source c ∧ c.score = h.score := by
  simp only [hasAllFields, Bool.and_eq_true, Option.isSome_iff_exists] at hw
  obtain ⟨⟨⟨⟨⟨t, ht⟩, ⟨sd, hsd⟩⟩, ⟨d, hd⟩⟩, ⟨im, him⟩⟩, ⟨u, hu⟩⟩ := hw
  refine ⟨{ title := t, shortDescription := sd, description := d, image := im,
            url := u, score := h.score }, ?_, ⟨ht, hsd, hd, him, hu⟩, rfl⟩
  simp [elasticsearch_parse_hit, ht, hsd, hd, him, hu]

theorem elasticsearch_parse_hit_err (h : ESHit) (hw : hasAllFields h.source = false) :
    elasticsearch_parse_hit h = Except.error ParseError.malformedResponse := by
  revert hw
  unfold hasAllFields elasticsearch_parse_hit
  generalize dictGet h.source "title" = o1
  generalize dictGet h.source "shortDescription" = o2
  generalize dictGet h.source "description" = o3
  generalize dictGet h.source "image" = o4
  generalize dictGet h.source "url" = o5
  cases o1 <;> cases o2 <;> cases o3 <;> cases o4 <;> cases o5 <;> simp

theorem typesense_parse_hit_ok (h : TypesenseHit) (hw : hasAllFields h.document = true) :
    ∃ c, typesense_parse_hit h = Except.ok c ∧ canonicalMatch h.document c ∧
      c.score = h.vector_distance.getD 0 := by
  simp only [hasAllFields, Bool.and_eq_true, Option.isSome_iff_exists] at hw
  obtain ⟨⟨⟨⟨⟨t, ht⟩, ⟨sd, hsd⟩⟩, ⟨d, hd⟩⟩, ⟨im, him⟩⟩, ⟨u, hu⟩⟩ := hw
  refine ⟨{ title := t, shortDescription := sd, description := d, image := im,
            url := u, score := h.vector_distance.getD 0 }, ?_, ⟨ht, hsd, hd, him, hu⟩, rfl⟩
  simp [typesense_parse_hit, ht, hsd, hd, him, hu]

theorem typesense_parse_hit_err (h : TypesenseHit) (hw : hasAllFields h.document = false) :
    typesense_parse_hit h = Except.error ParseError.malformedResponse := by
  revert hw
  unfold hasAllFields typesense_parse_hit
  generalize dictGet h.document "title" = o1
  generalize dictGet h.document "shortDescription" = o2
  generalize dictGet h.document "description" = o3
  generalize dictGet h.document "image" = o4
  generalize dictGet h.document "url" = o5
  cases o1 <;> cases o2 <;> cases o3 <;> cases o4 <;> cases o5 <;> simp

theorem map_parse_ok {α : Type} (f : α → Except ParseError CanonicalResult)
    (R : α → CanonicalResult → Prop) (l : List α)
    (H : ∀ h ∈ l, ∃ c, f h = Except.ok c ∧ R h c) :
    ∃ cs, map_parse f l = Except.ok cs ∧ List.Forall₂ R l cs := by
  induction l with
  | nil => exact ⟨[], rfl, List.Forall₂.nil⟩
  | cons a t ih =>
    obtain ⟨c, hc, hR⟩ := H a (List.mem_cons_self a t)
    obtain ⟨cs, hcs, hRs⟩ := ih (fun h hh => H h (List.mem_cons_of_mem a hh))
    exact ⟨c :: cs, by simp [map_parse, hc, hcs], List.Forall₂.cons hR hRs⟩

theorem map_parse_err {α : Type} (f : α → Except ParseError CanonicalResult)
    (P : α → Bool) (l : List α)
    (Hok : ∀ h ∈ l, P h = true → ∃ c, f h = Except.ok c)
    (Herr : ∀ h ∈ l, P h = false → f h = Except.error ParseError.malformedResponse)
    (h0 : α) (hmem : h0 ∈ l) (hP : P h0 = false) :
    map_parse f l = Except.error ParseError.malformedResponse := by
  induction l with
  | nil => cases hmem
  | cons a t ih =>
    cases hPa : P a with
    | false =>
      have ha := Herr a (List.mem_cons_self a t) hPa
      simp [map_parse, ha]
    | true =>
      obtain ⟨c, hc⟩ := Hok a (List.mem_cons_self a t) hPa
      have hmem2 : h0 ∈ t := by
        rcases List.mem_cons.mp hmem with he | he
        · subst he; rw [hP] at hPa; cases hPa
        · exact he
      have htail := ih (fun h hh => Hok h (List.mem_cons_of_mem a hh))
        (fun h hh => Herr h (List.mem_cons_of_mem a hh)) hmem2
      simp [map_parse, hc, htail]

/-! ## Claims about the query phase -/

/-- C1: for each of the three backends, parsing a search response containing
N hits (each carrying the five expected fields) produces a sequence of
exactly N CanonicalResult records; for every hit the five non-score fields
are populated from the hit and the backend-native score is carried through
unmodified. -/
theorem C1_parse_populates_all_hits :
    (∀ points : List QdrantPoint, (∀ h ∈ points, hasAllFields h.payload = true) →
      ∃ cs, search_qdrant_parse points = Except.ok cs ∧ cs.length = points.length ∧
        List.Forall₂ (fun (h : QdrantPoint) (c : CanonicalResult) =>
          canonicalMatch h.payload c ∧ c.score = h.score) points cs) ∧
    (∀ resp : ESResponse, (∀ h ∈ resp.hits.hits, hasAllFields h.source = true) →
      ∃ cs, search_elasticsearch_parse resp = Except.ok cs ∧
        cs.length = resp.hits.hits.length ∧
        List.Forall₂ (fun (h : ESHit) (c : CanonicalResult) =>
          canonicalMatch h.source c ∧ c.score = h.score) resp.hits.hits cs) ∧
    (∀ (resp : TypesenseResponse) (r : TypesenseSearchResult) (hl : List TypesenseHit),
      resp.results.head? = some r → r.hits = some hl →
      (∀ h ∈ hl, hasAllFields h.document = true) →
      ∃ cs, search_typesense_parse resp = Except.ok cs ∧ cs.length = hl.length ∧
        List.Forall₂ (fun (h : TypesenseHit) (c : CanonicalResult) =>
          canonicalMatch h.document c ∧
          ∀ s, h.vector_distance = some s → c.score = s) hl cs) := by
  refine ⟨?_, ?_, ?_⟩
  · intro points H
    obtain ⟨cs, hcs, hR⟩ := map_parse_ok qdrant_parse_hit
      (fun h c => canonicalMatch h.payload c ∧ c.score = h.score) points
      (fun h hh => qdrant_parse_hit_ok h (H h hh))
    exact ⟨cs, hcs, hR.length_eq.symm, hR⟩
  · intro resp H
    obtain ⟨cs, hcs, hR⟩ := map_parse_ok elasticsearch_parse_hit
      (fun h c => canonicalMatch h.source c ∧ c.score = h.score) resp.hits.hits
      (fun h hh => elasticsearch_parse_hit_ok h (H h hh))
    exact ⟨cs, hcs, hR.length_eq.symm, hR⟩
  · intro resp r hl hr hh H
    obtain ⟨cs, hcs, hR⟩ := map_parse_ok typesense_parse_hit
      (fun h c => canonicalMatch h.document c ∧
        ∀ s, h.vector_distance = some s → c.score = s) hl
      (fun h hmem => by
        obtain ⟨c, hok, hm, hscore⟩ := typesense_parse_hit_ok h (H h hmem)
        refine ⟨c, hok, hm, ?_⟩
        intro s hs
        rw [hs] at hscore
        simpa using hscore)
    refine ⟨cs, ?_, hR.length_eq.symm, hR⟩
    simp [search_typesense_parse, hr, hh, hcs]

/-- A well-formed sample response dict used by the witnesses. -/
def sample_dict : Dict :=
  [("title", "Computer Science BS"), ("shortDescription", "sd"),
   ("description", "d"), ("image", "img"), ("url", "/u")]

/-- Witness for C1: one concrete hit per backend. -/
theorem C1_parse_populates_all_hits_witness :
    (∀ h ∈ [QdrantPoint.mk sample_dict 7], hasAllFields h.payload = true) ∧
    (∃ cs, search_qdrant_parse [QdrantPoint.mk sample_dict 7] = Except.ok cs ∧
      cs.length = [QdrantPoint.mk sample_dict 7].length ∧
      List.Forall₂ (fun (h : QdrantPoint) (c : CanonicalResult) =>
        canonicalMatch h.payload c ∧ c.score = h.score)
        [QdrantPoint.mk sample_dict 7] cs) ∧
    (∃ cs, search_elasticsearch_parse
        (ESResponse.mk (ESHitsWrapper.mk [ESHit.mk sample_dict 3])) = Except.ok cs ∧
      cs.length = (ESResponse.mk (ESHitsWrapper.mk [ESHit.mk sample_dict 3])).hits.hits.length ∧
      List.Forall₂ (fun (h : ESHit) (c : CanonicalResult) =>
        canonicalMatch h.source c ∧ c.score = h.score)
        (ESResponse.mk (ESHitsWrapper.mk [ESHit.mk sample_dict 3])).hits.hits cs) ∧
    (∃ cs, search_typesense_parse
        (TypesenseResponse.mk [TypesenseSearchResult.mk
          (some [TypesenseHit.mk sample_dict (some 2)])]) = Except.ok cs ∧
      cs.length = [TypesenseHit.mk sample_dict (some 2)].length ∧
      List.Forall₂ (fun (h : TypesenseHit) (c : CanonicalResult) =>
        canonicalMatch h.document c ∧
        ∀ s, h.vector_distance = some s → c.score = s)
        [TypesenseHit.mk sample_dict (some 2)] cs) :=
  ⟨by decide,
   C1_parse_populates_all_hits.1 _ (by decide),
   C1_parse_populates_all_hits.2.1 _ (by decide),
   C1_parse_populates_all_hits.2.2 _ _ _ rfl rfl (by decide)⟩

/-- C2: for every query embedding and every limit k, each backend's request
builder asks for exactly k results — Qdrant via its limit field,
Elasticsearch via knn.k, Typesense via the k parameter of the vector query
string (and per_page) — and Elasticsearch's num_candidates over-fetch is
the constant 100 regardless of k. -/
theorem C2_request_limit_is_k (embedding : List Scalar) (k : Nat) :
    (search_qdrant_request embedding k).limit = k ∧
    (search_elasticsearch_request embedding k).knn.k = k ∧
    (search_elasticsearch_request embedding k).knn.num_candidates = 100 ∧
    (search_typesense_request embedding k).searches.map
      (fun s => s.per_page) = [k] ∧
    (search_typesense_request embedding k).searches.map
      (fun s => s.vector_query) =
      [ "embedding:([" ++ String.intercalate "," (embedding.map toString) ++
          "], k:" ++ toString k ++ ")" ] :=
  ⟨rfl, rfl, rfl, rfl, rfl⟩

/-- C3: for each of the three backends, a hit missing any of the five
expected fields makes the whole parse fail with the malformed-response
error instead of producing a partial or defaulted record. -/
theorem C3_missing_field_fails :
    (∀ (points : List QdrantPoint) (h : QdrantPoint), h ∈ points →
      hasAllFields h.payload = false →
      search_qdrant_parse points = Except.error ParseError.malformedResponse) ∧
    (∀ (resp : ESResponse) (h : ESHit), h ∈ resp.hits.hits →
      hasAllFields h.source = false →
      search_elasticsearch_parse resp = Except.error ParseError.malformedResponse) ∧
    (∀ (resp : TypesenseResponse) (r : TypesenseSearchResult)
        (hl : List TypesenseHit) (h : TypesenseHit),
      resp.results.head? = some r → r.hits = some hl → h ∈ hl →
      hasAllFields h.document = false →
      search_typesense_parse resp = Except.error ParseError.malformedResponse) := by
  refine ⟨?_, ?_, ?_⟩
  · intro points h hmem hbad
    exact map_parse_err qdrant_parse_hit (fun h2 => hasAllFields h2.payload) points
      (fun h2 _ hw => (qdrant_parse_hit_ok h2 hw).imp (fun c hc => hc.1))
      (fun h2 _ hw => qdrant_parse_hit_err h2 hw) h hmem hbad
  · intro resp h hmem hbad
    exact map_parse_err elasticsearch_parse_hit (fun h2 => hasAllFields h2.source)
      resp.hits.hits
      (fun h2 _ hw => (elasticsearch_parse_hit_ok h2 hw).imp (fun c hc => hc.1))
      (fun h2 _ hw => elasticsearch_parse_hit_err h2 hw) h hmem hbad
  · intro resp r hl h hr hh hmem hbad
    have hmain := map_parse_err typesense_parse_hit
      (fun h2 => hasAllFields h2.document) hl
      (fun h2 _ hw => (typesense_parse_hit_ok h2 hw).imp (fun c hc => hc.1))
      (fun h2 _ hw => typesense_parse_hit_err h2 hw) h hmem hbad
    simp [search_typesense_parse, hr, hh, hmain]

/-- A response dict missing the "url" field, used by the C3 witness. -/
def sample_dict_missing_url : Dict :=
  [("title", "t"), ("shortDescription", "sd"), ("description", "d"),
   ("image", "img")]

/-- Witness for C3: one concrete malformed hit per backend. -/
theorem C3_missing_field_fails_witness :
    (QdrantPoint.mk sample_dict_missing_url 7 ∈ [QdrantPoint.mk sample_dict_missing_url 7] ∧
      hasAllFields sample_dict_missing_url = false ∧
      search_qdrant_parse [QdrantPoint.mk sample_dict_missing_url 7] =
        Except.error ParseError.malformedResponse) ∧
    (search_elasticsearch_parse
        (ESResponse.mk (ESHitsWrapper.mk [ESHit.mk sample_dict_missing_url 3])) =
      Except.error ParseError.malformedResponse) ∧
    (search_typesense_parse
        (TypesenseResponse.mk [TypesenseSearchResult.mk
          (some [TypesenseHit.mk sample_dict_missing_url none])]) =
      Except.error ParseError.malformedResponse) :=
  ⟨⟨by decide, by decide,
    C3_missing_field_fails.1 [QdrantPoint.mk sample_dict_missing_url 7]
      (QdrantPoint.mk sample_dict_missing_url 7) (by decide) (by decide)⟩,
   C3_missing_field_fails.2.1 _ (ESHit.mk sample_dict_missing_url 3)
     (by decide) (by decide),
   C3_missing_field_fails.2.2 _ _ _ (TypesenseHit.mk sample_dict_missing_url none)
     rfl rfl (by decide) (by decide)⟩

/-- C8: the Typesense request builder produces a multi-search request with
one search whose filter query is the match-all wildcard and whose vector
clause is the textual serialization of the query vector's components,
comma-separated, with k set equal to limit; plus one fully concrete
evaluation of the serialization. -/
theorem C8_typesense_request_serialization (embedding : List Scalar) (k : Nat) :
    (search_typesense_request embedding k).searches =
      [ { collection := COLLECTION_NAME
          q := "*"
          vector_query := "embedding:([" ++
            String.intercalate "," (embedding.map toString) ++
            "], k:" ++ toString k ++ ")"
          per_page := k } ] ∧
    typesense_vector_query [(-2 : Scalar), 3] 5 = "embedding:([-2,3], k:5)" :=
  ⟨rfl, by decide⟩

/-- C9: an Elasticsearch response whose hits.hits list is empty parses to
the empty canonical result sequence, not an error. -/
theorem C9_empty_hits_yield_empty (resp : ESResponse)
    (h : resp.hits.hits = []) :
    search_elasticsearch_parse resp = Except.ok [] := by
  simp [search_elasticsearch_parse, h, map_parse]

/-- Witness for C9 at the concrete empty response. -/
theorem C9_empty_hits_yield_empty_witness :
    (ESResponse.mk (ESHitsWrapper.mk [])).hits.hits = ([] : List ESHit) ∧
    search_elasticsearch_parse (ESResponse.mk (ESHitsWrapper.mk [])) =
      Except.ok [] :=
  ⟨rfl, C9_empty_hits_yield_empty _ rfl⟩

/-- C10: a Typesense hit carrying all five document fields but no
vector_distance key parses to a result whose score is the default 0, and a
Typesense result object without a hits key parses to the empty sequence
rather than an error. -/
theorem C10_typesense_defaults :
    (∀ hit : TypesenseHit, hasAllFields hit.document = true →
      hit.vector_distance = none →
      ∃ c, typesense_parse_hit hit = Except.ok c ∧ c.score = 0) ∧
    (∀ (resp : TypesenseResponse) (r : TypesenseSearchResult),
      resp.results.head? = some r → r.hits = none →
      search_typesense_parse resp = Except.ok []) := by
  constructor
  · intro hit hw hnone
    obtain ⟨c, hok, _, hscore⟩ := typesense_parse_hit_ok hit hw
    refine ⟨c, hok, ?_⟩
    rw [hnone] at hscore
    simpa using hscore
  · intro resp r hr hh
    simp [search_typesense_parse, hr, hh, map_parse]

/-- Witness for C10 at concrete inputs. -/
theorem C10_typesense_defaults_witness :
    (hasAllFields sample_dict = true ∧
      (TypesenseHit.mk sample_dict none).vector_distance = none ∧
      ∃ c, typesense_parse_hit (TypesenseHit.mk sample_dict none) =
        Except.ok c ∧ c.score = 0) ∧
    search_typesense_parse
      (TypesenseResponse.mk [TypesenseSearchResult.mk none]) = Except.ok [] :=
  ⟨⟨by decide, rfl,
    C10_typesense_defaults.1 (TypesenseHit.mk sample_dict none) (by decide) rfl⟩,
   C10_typesense_defaults.2 _ (TypesenseSearchResult.mk none) rfl rfl⟩

/-! ## Claims about the embedding adapter -/

/-- A provider whose call succeeds but returns a vector of length 2,
far from EMBEDDING_DIMENSION. -/
def short_vector_provider : String → Except ProviderError EmbeddingsResponse :=
  fun _ => Except.ok (EmbeddingsResponse.mk [EmbeddingDatum.mk [1, 2]])

/-- A provider whose external call fails. -/
def failing_provider : String → Except ProviderError EmbeddingsResponse :=
  fun _ => Except.error ProviderError.providerFailure

/-- C7 counterexample: get_embedding performs no length validation — a
provider returning a 2-component vector yields a successful result, not a
ProviderError, although 2 differs from the expected 1536. -/
theorem C7_no_length_check_counterexample :
    get_embedding short_vector_provider "computer science" =
      Except.ok [1, 2] ∧
    ([1, 2] : List Scalar).length ≠ EMBEDDING_DIMENSION :=
  ⟨rfl, by decide⟩

/-- C7 amended: get_embedding fails with ProviderError exactly when the
external call errors; when the call succeeds it returns the provider's
first vector unchanged, performing no length validation. -/
theorem C7_embed_propagates_errors_unvalidated :
    (∀ (create : String → Except ProviderError EmbeddingsResponse)
        (text : String) (e : ProviderError),
      create text = Except.error e →
      get_embedding create text = Except.error (EmbedError.provider e)) ∧
    (∀ (create : String → Except ProviderError EmbeddingsResponse)
        (text : String) (res : EmbeddingsResponse) (d : EmbeddingDatum),
      create text = Except.ok res → res.data.head? = some d →
      get_embedding create text = Except.ok d.embedding) := by
  constructor
  · intro create text e h
    simp [get_embedding, h]
  · intro create text res d h hd
    simp [get_embedding, h, hd]

/-- Witness for the amended C7: both branches at concrete providers. -/
theorem C7_embed_propagates_errors_unvalidated_witness :
    (failing_provider "q" = Except.error ProviderError.providerFailure ∧
      get_embedding failing_provider "q" =
        Except.error (EmbedError.provider ProviderError.providerFailure)) ∧
    (short_vector_provider "q" =
        Except.ok (EmbeddingsResponse.mk [EmbeddingDatum.mk [1, 2]]) ∧
      (EmbeddingsResponse.mk [EmbeddingDatum.mk [1, 2]]).data.head? =
        some (EmbeddingDatum.mk [1, 2]) ∧
      get_embedding short_vector_provider "q" =
        Except.ok (EmbeddingDatum.mk [1, 2]).embedding) :=
  ⟨⟨rfl, C7_embed_propagates_errors_unvalidated.1 failing_provider "q"
      ProviderError.providerFailure rfl⟩,
   ⟨rfl, rfl, C7_embed_propagates_errors_unvalidated.2 short_vector_provider "q"
      (EmbeddingsResponse.mk [EmbeddingDatum.mk [1, 2]])
      (EmbeddingDatum.mk [1, 2]) rfl rfl⟩⟩

/-! ## Lemmas about the ingestion store semantics -/

theorem storeGet_storeSet (s : Store) (n : String)
    (d : List (String × StoredDoc)) : storeGet (storeSet s n d) n = some d := by
  simp [storeGet, storeSet, List.find?]

theorem foldl_insert_ops (pts : List (String × StoredDoc)) (s : Store)
    (acc : List (String × StoredDoc))
    (hacc : storeGet s COLLECTION_NAME = some acc) :
    storeGet (List.foldl applyIngestOp s
        (pts.map (fun p => IngestOp.insertDoc COLLECTION_NAME p.1 p.2)))
      COLLECTION_NAME = some (acc ++ pts) := by
  induction pts generalizing s acc with
  | nil => simpa using hacc
  | cons p rest ih =>
    rw [List.map_cons, List.foldl_cons]
    have hstep : storeGet
        (applyIngestOp s (IngestOp.insertDoc COLLECTION_NAME p.1 p.2))
        COLLECTION_NAME = some (acc ++ [(p.1, p.2)]) := by
      simp [applyIngestOp, hacc, storeGet_storeSet]
    have hrec := ih _ _ hstep
    simpa [List.append_assoc] using hrec

theorem attachIds_length (ids : Nat → String) (n : Nat)
    (l : List EmbeddedItem) : (attachIds ids n l).length = l.length := by
  induction l generalizing n with
  | nil => rfl
  | cons a t ih => simp [attachIds, ih]

theorem run_setup_qdrant_get (ids : Nat → String) (data : List EmbeddedItem)
    (st : Store) :
    storeGet (run_setup_qdrant ids data st) COLLECTION_NAME =
      some (attachIds ids 0 data) := by
  unfold run_setup_qdrant setup_qdrant_trace
  cases hex : (storeGet st COLLECTION_NAME).isSome <;>
    simp [hex, applyIngestOp, storeGet_storeSet]

theorem run_setup_elasticsearch_get (ids : Nat → String)
    (data : List EmbeddedItem) (st : Store) :
    storeGet (run_setup_elasticsearch ids data st) COLLECTION_NAME =
      some (attachIds ids 0 data) := by
  unfold run_setup_elasticsearch setup_elasticsearch_trace
  rw [List.foldl_append, List.foldl_cons, List.foldl_append]
  have hcreate : storeGet
      (applyIngestOp
        (List.foldl applyIngestOp st
          (if (storeGet st COLLECTION_NAME).isSome
            then [IngestOp.deleteCollection COLLECTION_NAME] else []))
        (IngestOp.createCollection COLLECTION_NAME elasticsearch_create_schema))
      COLLECTION_NAME = some [] := by
    simp [applyIngestOp, storeGet_storeSet]
  have hins := foldl_insert_ops (attachIds ids 0 data) _ [] hcreate
  simpa [applyIngestOp] using hins

theorem run_setup_typesense_get (ids : Nat → String)
    (data : List EmbeddedItem) (st : Store) :
    storeGet (run_setup_typesense ids data st) COLLECTION_NAME =
      some (attachIds ids 0 data) := by
  unfold run_setup_typesense setup_typesense_trace
  rw [List.foldl_cons, List.foldl_cons]
  have hcreate : storeGet
      (applyIngestOp (applyIngestOp st (IngestOp.deleteCollection COLLECTION_NAME))
        (IngestOp.createCollection COLLECTION_NAME typesense_create_schema))
      COLLECTION_NAME = some [] := by
    simp [applyIngestOp, storeGet_storeSet]
  have hins := foldl_insert_ops (attachIds ids 0 data) _ [] hcreate
  simpa using hins

/-! ## Claims about the ingestion loaders -/

/-- C5: rerunning a loader twice with the same input leaves the collection
holding exactly the input document count — the second run deletes and
recreates instead of appending — for each of the three backends. -/
theorem C5_reingestion_keeps_count (ids1 ids2 : Nat → String)
    (data : List EmbeddedItem) (st : Store) :
    (storeGet (run_setup_qdrant ids2 data (run_setup_qdrant ids1 data st))
      COLLECTION_NAME).map List.length = some data.length ∧
    (storeGet (run_setup_elasticsearch ids2 data
        (run_setup_elasticsearch ids1 data st))
      COLLECTION_NAME).map List.length = some data.length ∧
    (storeGet (run_setup_typesense ids2 data (run_setup_typesense ids1 data st))
      COLLECTION_NAME).map List.length = some data.length := by
  refine ⟨?_, ?_, ?_⟩ <;>
    simp [run_setup_qdrant_get, run_setup_elasticsearch_get,
      run_setup_typesense_get, attachIds_length]

theorem insertedDocs_append (t1 t2 : List IngestOp) :
    insertedDocs (t1 ++ t2) = insertedDocs t1 ++ insertedDocs t2 := by
  induction t1 with
  | nil => rfl
  | cons o t ih => cases o <;> simp [insertedDocs, ih]

theorem insertedDocs_map_insert (n : String)
    (pts : List (String × StoredDoc)) :
    insertedDocs (pts.map (fun p => IngestOp.insertDoc n p.1 p.2)) = pts := by
  induction pts with
  | nil => rfl
  | cons p rest ih => simp [insertedDocs, ih]

theorem insertedDocs_setup_qdrant (ids : Nat → String)
    (data : List EmbeddedItem) (st : Store) :
    insertedDocs (setup_qdrant_trace ids data st) = attachIds ids 0 data := by
  unfold setup_qdrant_trace
  cases hex : (storeGet st COLLECTION_NAME).isSome <;>
    simp [hex, insertedDocs_append, insertedDocs]

theorem insertedDocs_setup_elasticsearch (ids : Nat → String)
    (data : List EmbeddedItem) (st : Store) :
    insertedDocs (setup_elasticsearch_trace ids data st) =
      attachIds ids 0 data := by
  unfold setup_elasticsearch_trace
  cases hex : (storeGet st COLLECTION_NAME).isSome <;>
    simp [hex, insertedDocs_append, insertedDocs, insertedDocs_map_insert]

theorem insertedDocs_setup_typesense (ids : Nat → String)
    (data : List EmbeddedItem) (st : Store) :
    insertedDocs (setup_typesense_trace ids data st) =
      attachIds ids 0 data := by
  unfold setup_typesense_trace
  simp [insertedDocs, insertedDocs_map_insert]

theorem attachIds_fst_mem (ids : Nat → String) (n : Nat)
    (l : List EmbeddedItem) (s : String)
    (hs : s ∈ (attachIds ids n l).map Prod.fst) :
    ∃ k, n ≤ k ∧ ids k = s := by
  induction l generalizing n with
  | nil => simp [attachIds] at hs
  | cons a t ih =>
    simp only [attachIds, List.map_cons, List.mem_cons] at hs
    rcases hs with h | h
    · exact ⟨n, Nat.le_refl n, h.symm⟩
    · obtain ⟨k, hk, he⟩ := ih (n + 1) h
      exact ⟨k, Nat.le_trans (Nat.le_succ n) hk, he⟩

theorem attachIds_fst_nodup (ids : Nat → String)
    (hinj : Function.Injective ids) (n : Nat) (l : List EmbeddedItem) :
    ((attachIds ids n l).map Prod.fst).Nodup := by
  induction l generalizing n with
  | nil => simp [attachIds]
  | cons a t ih =>
    simp only [attachIds, List.map_cons, List.nodup_cons]
    refine ⟨?_, ih (n + 1)⟩
    intro hmem
    obtain ⟨k, hk, he⟩ := attachIds_fst_mem ids (n + 1) t (ids n) hmem
    have hkn : k = n := hinj he
    omega

/-- A sample embedded catalog item used by concrete instances. -/
def sample_item : EmbeddedItem :=
  { item :=
      { title := "Computer Science BS"
        shortDescription := "sd"
        longDescription := "ld"
        degreeImage := "img"
        detailPage := "/p" }
    embedding := [1, 2] }

/-- C4 counterexample: the claim that every backend's creation schema
declares each field's type plus the cosine metric is false on the code —
Qdrant's create_collection call declares no type for the "title" field (it
passes only vectors_config), and Typesense's schema declares no distance
metric at all. -/
theorem C4_schema_gaps_counterexample :
    IngestOp.createCollection COLLECTION_NAME qdrant_create_schema ∈
      setup_qdrant_trace (fun _ => "id0") [sample_item] [] ∧
    schemaFieldDeclared qdrant_create_schema "title" = false ∧
    IngestOp.createCollection COLLECTION_NAME typesense_create_schema ∈
      setup_typesense_trace (fun _ => "id0") [sample_item] [] ∧
    schemaDeclaresCosine typesense_create_schema = false := by
  refine ⟨?_, rfl, ?_, rfl⟩ <;> decide

/-- The amended ingestion-loader contract, for one run on input data with
identifier supply ids against starting store st: each backend performs
deletion (tolerating not-found), then creation, then insertion, in that
order; every input document is inserted with its generated identifier and
the identifiers are pairwise distinct; every creation schema declares the
embedding dimensionality 1536; Qdrant and Elasticsearch declare the cosine
metric while Typesense's schema declares none; Elasticsearch and Typesense
declare each document field's type while Qdrant's creation call declares no
document field. -/
def IngestionRunFacts (ids : Nat → String) (data : List EmbeddedItem)
    (st : Store) : Prop :=
  (∃ dels rest, setup_qdrant_trace ids data st =
      dels ++ IngestOp.createCollection COLLECTION_NAME qdrant_create_schema
        :: rest ∧
      (∀ o ∈ dels, isDeleteOp o = true) ∧ (∀ o ∈ rest, isInsertOp o = true)) ∧
  (∃ dels rest, setup_elasticsearch_trace ids data st =
      dels ++ IngestOp.createCollection COLLECTION_NAME
        elasticsearch_create_schema :: rest ∧
      (∀ o ∈ dels, isDeleteOp o = true) ∧
      (∀ o ∈ rest, isInsertOp o = true ∨ isRefreshOp o = true)) ∧
  (∃ dels rest, setup_typesense_trace ids data st =
      dels ++ IngestOp.createCollection COLLECTION_NAME typesense_create_schema
        :: rest ∧
      (∀ o ∈ dels, isDeleteOp o = true) ∧ (∀ o ∈ rest, isInsertOp o = true)) ∧
  (∀ s2 : Store, storeGet s2 COLLECTION_NAME = none →
      applyIngestOp s2 (IngestOp.deleteCollection COLLECTION_NAME) = s2) ∧
  insertedDocs (setup_qdrant_trace ids data st) = attachIds ids 0 data ∧
  insertedDocs (setup_elasticsearch_trace ids data st) = attachIds ids 0 data ∧
  insertedDocs (setup_typesense_trace ids data st) = attachIds ids 0 data ∧
  ((insertedDocs (setup_qdrant_trace ids data st)).map Prod.fst).Nodup ∧
  ((insertedDocs (setup_elasticsearch_trace ids data st)).map Prod.fst).Nodup ∧
  ((insertedDocs (setup_typesense_trace ids data st)).map Prod.fst).Nodup ∧
  schemaEmbeddingDims qdrant_create_schema = some EMBEDDING_DIMENSION ∧
  schemaEmbeddingDims elasticsearch_create_schema = some EMBEDDING_DIMENSION ∧
  schemaEmbeddingDims typesense_create_schema = some EMBEDDING_DIMENSION ∧
  schemaDeclaresCosine qdrant_create_schema = true ∧
  schemaDeclaresCosine elasticsearch_create_schema = true ∧
  schemaDeclaresCosine typesense_create_schema = false ∧
  CANONICAL_FIELDS.all
    (fun f => schemaFieldDeclared elasticsearch_create_schema f) = true ∧
  CANONICAL_FIELDS.all
    (fun f => schemaFieldDeclared typesense_create_schema f) = true ∧
  CANONICAL_FIELDS.all
    (fun f => ! schemaFieldDeclared qdrant_create_schema f) = true

/-- C4 amended: every loader deletes (not-found tolerated), then creates,
then inserts every document with a fresh unique identifier, and the
creation schemas declare what the code declares (dimensionality 1536
everywhere; cosine only for Qdrant and Elasticsearch; per-field types only
for Elasticsearch and Typesense). -/
theorem C4_loader_order_and_schema (ids : Nat → String)
    (data : List EmbeddedItem) (st : Store)
    (hinj : Function.Injective ids) : IngestionRunFacts ids data st := by
  unfold IngestionRunFacts
  refine ⟨?_, ?_, ?_, ?_, insertedDocs_setup_qdrant ids data st,
    insertedDocs_setup_elasticsearch ids data st,
    insertedDocs_setup_typesense ids data st, ?_, ?_, ?_,
    rfl, rfl, rfl, rfl, rfl, rfl, rfl, rfl, rfl⟩
  · refine ⟨(if (storeGet st COLLECTION_NAME).isSome
        then [IngestOp.deleteCollection COLLECTION_NAME] else []),
      [IngestOp.bulkUpsert COLLECTION_NAME (attachIds ids 0 data)],
      rfl, ?_, ?_⟩
    · intro o ho
      by_cases hex : (storeGet st COLLECTION_NAME).isSome <;>
        simp [hex] at ho
      subst ho; rfl
    · intro o ho
      simp at ho; subst ho; rfl
  · refine ⟨(if (storeGet st COLLECTION_NAME).isSome
        then [IngestOp.deleteCollection COLLECTION_NAME] else []),
      (attachIds ids 0 data).map
        (fun p : String × StoredDoc => IngestOp.insertDoc COLLECTION_NAME p.1 p.2)
        ++ [IngestOp.refreshIndex COLLECTION_NAME],
      rfl, ?_, ?_⟩
    · intro o ho
      by_cases hex : (storeGet st COLLECTION_NAME).isSome <;>
        simp [hex] at ho
      subst ho; rfl
    · intro o ho
      rcases List.mem_append.mp ho with hm | hm
      · obtain ⟨p, _, hp⟩ := List.mem_map.mp hm
        subst hp; exact Or.inl rfl
      · simp at hm; subst hm; exact Or.inr rfl
  · refine ⟨[IngestOp.deleteCollection COLLECTION_NAME],
      (attachIds ids 0 data).map
        (fun p : String × StoredDoc => IngestOp.insertDoc COLLECTION_NAME p.1 p.2),
      rfl, ?_, ?_⟩
    · intro o ho
      simp at ho; subst ho; rfl
    · intro o ho
      obtain ⟨p, _, hp⟩ := List.mem_map.mp ho
      subst hp; rfl
  · intro s2 h2
    have hfind : s2.find? (fun p => p.1 == COLLECTION_NAME) = none := by
      unfold storeGet at h2
      cases hf : s2.find? (fun p => p.1 == COLLECTION_NAME) with
      | none => rfl
      | some v => rw [hf] at h2; cases h2
    have hall := List.find?_eq_none.mp hfind
    show storeRemove s2 COLLECTION_NAME = s2
    unfold storeRemove
    apply List.filter_eq_self.mpr
    intro a ha
    have hne := hall a ha
    simp only [beq_iff_eq] at hne
    simpa [bne_iff_ne] using hne
  · rw [insertedDocs_setup_qdrant]
    exact attachIds_fst_nodup ids hinj 0 data
  · rw [insertedDocs_setup_elasticsearch]
    exact attachIds_fst_nodup ids hinj 0 data
  · rw [insertedDocs_setup_typesense]
    exact attachIds_fst_nodup ids hinj 0 data

/-- An injective identifier supply for concrete instances: n repetitions
of the character a. -/
def witness_ids (n : Nat) : String := String.mk (List.replicate n 'a')

theorem witness_ids_injective : Function.Injective witness_ids := by
  intro a b h
  have hlen : (witness_ids a).length = (witness_ids b).length := by rw [h]
  simpa [witness_ids, String.length] using hlen

/-- Witness for the amended C4 at a concrete run. -/
theorem C4_loader_order_and_schema_witness :
    Function.Injective witness_ids ∧
    IngestionRunFacts witness_ids [sample_item] [] :=
  ⟨witness_ids_injective,
   C4_loader_order_and_schema witness_ids [sample_item] [] witness_ids_injective⟩

/-! ## Claim about the embedding loop of the main block -/

theorem embed_all_log (embed : String → List Scalar)
    (data : List ProgramItem) :
    (embed_all embed data).2 = data.map (fun it => it.longDescription) := by
  induction data with
  | nil => rfl
  | cons a t ih => simp [embed_all, ih]

theorem embed_all_embeddings (embed : String → List Scalar)
    (data : List ProgramItem) :
    (embed_all embed data).1.map (fun it => it.embedding) =
      data.map (fun it => embed it.longDescription) := by
  induction data with
  | nil => rfl
  | cons a t ih => simp [embed_all, ih]

theorem attachIds_embeddings (ids : Nat → String) (n : Nat)
    (l : List EmbeddedItem) :
    (attachIds ids n l).map (fun p => p.2.embedding) =
      l.map (fun it => it.embedding) := by
  induction l generalizing n with
  | nil => rfl
  | cons a t ih => simp [attachIds, doc_of, ih]

/-- C6: one ingestion run over a catalog of N records makes exactly N
provider calls — the call log of the embedding loop is the longDescription
of each record, once per record — and each of the three backend loaders
stores, for each record, exactly the one vector that record's single call
produced, so the same vector is reused across all three backends. -/
theorem C6_one_embedding_call_per_record (embed : String → List Scalar)
    (data : List ProgramItem) (ids : Nat → String) (st : Store) :
    (embed_all embed data).2.length = data.length ∧
    (embed_all embed data).2 = data.map (fun it => it.longDescription) ∧
    (insertedDocs (setup_qdrant_trace ids (embed_all embed data).1 st)).map
      (fun p => p.2.embedding) =
      data.map (fun it => embed it.longDescription) ∧
    (insertedDocs (setup_elasticsearch_trace ids (embed_all embed data).1 st)).map
      (fun p => p.2.embedding) =
      data.map (fun it => embed it.longDescription) ∧
    (insertedDocs (setup_typesense_trace ids (embed_all embed data).1 st)).map
      (fun p => p.2.embedding) =
      data.map (fun it => embed it.longDescription) := by
  refine ⟨?_, embed_all_log embed data, ?_, ?_, ?_⟩
  · rw [embed_all_log]
    simp
  · rw [insertedDocs_setup_qdrant, attachIds_embeddings, embed_all_embeddings]
  · rw [insertedDocs_setup_elasticsearch, attachIds_embeddings,
      embed_all_embeddings]
  · rw [insertedDocs_setup_typesense, attachIds_embeddings,
      embed_all_embeddings]
